import Mathlib

/-!
Shallow embedding of the bossa-web example flasher (`src/example.ts`).

The flow under study is `flashFirmware` together with its helpers
`resetToBootloader`, `findBootloaderPort` and the constants
`BOOTLOADER_SIZE` and `USB_FILTERS`.  Every external call (Web Serial
open/close/setSignals/requestPort/getPorts, SamBA connect/disconnect,
Device create/reset, Flasher erase/write) is modelled by an entry in a
`FlashEnv` environment that decides whether the call succeeds or throws,
and every call made is recorded as an `Event` in a trace, in the order
the source issues them.  Thrown JavaScript errors are `JsError` values;
`try`/`catch` blocks are transcribed as explicit control flow.
-/

namespace BossaWeb

/-- `BOOTLOADER_SIZE` constant of example.ts line 15: 8 KiB. -/
def BOOTLOADER_SIZE : Nat := 0x2000

/-- `USB_FILTERS` vendor-id allow-list of example.ts lines 18-23
(Adafruit, Arduino, SparkFun, Atmel). -/
def USB_FILTERS : List Nat := [0x239A, 0x2341, 0x1B4F, 0x03EB]

/-- Modelled from the spec: the `Family` enumeration imported from
`./device` (device.ts is not among the source files).  Spec section 3
lists the supported chip families as SAMD21, SAMR21, SAML21 and unknown. -/
inductive Family
  | FAMILY_SAMD21
  | FAMILY_SAMR21
  | FAMILY_SAML21
  | FAMILY_NONE
deriving DecidableEq, Repr

/-- The structured message of a thrown JavaScript error: either an
opaque string raised by an external collaborator, or one of the two
errors `flashFirmware` itself constructs (example.ts lines 317 and 337). -/
inductive EMsg
  | raw (s : String)
  | flashNotAvailable
  | imageTooLarge (len : Nat) (avail : Int)
deriving DecidableEq, Repr

/-- A thrown JavaScript `Error`: its `name` and its `message`. -/
structure JsError where
  name : String
  message : EMsg
deriving DecidableEq, Repr

/-- Serial open options, as passed to `port.open` in example.ts. -/
structure OpenOpts where
  baudRate : Nat
  dataBits : Nat
  stopBits : Nat
  parity : String
  bufferSize : Option Nat
  flowControl : Option String
deriving DecidableEq, Repr

/-- The four log levels of `log` (example.ts line 52). -/
inductive LType
  | info
  | success
  | error
  | warning
deriving DecidableEq, Repr

/-- One log message per log site reached from `flashFirmware`. -/
inductive LMsg
  | noFirmwareSelected
  | webSerialUnsupported
  | useChromiumBrowser
  | step1SelectPort
  | selectBootloaderIfAlready
  | portSelected
  | checkingBootloader
  | resettingToBootloader
  | resetSignalSent
  | deviceInBootloader
  | couldNotReset
  | step2LookingForPort
  | foundPotentialPort (vid pid : Option Nat)
  | selectBootloaderManually
  | step3Connecting
  | connectedToSamba
  | detectingDevice
  | deviceInfo (numPages pageSize sizeKB : Nat)
  | usingFlashOffset (offset : Nat)
  | step4Flashing
  | erasingAt (offset : Nat)
  | flashErased
  | writingAt (offset : Nat)
  | firmwareWritten
  | resettingDevice
  | flashComplete
  | cancelledByUser
  | deviceNotSupported
  | flashFailed (e : JsError)
deriving DecidableEq, Repr

/-- Observable events of the pipeline, in issuance order. -/
inductive Event
  | logE (t : LType) (m : LMsg)
  | uiSetDisabled (b : Bool)
  | progressReset
  | openPort (opts : OpenOpts)
  | setDTR (b : Bool)
  | sleepMs (ms : Nat)
  | closePort
  | requestPortE (filters : List Nat)
  | getPortsE
  | sambaConnect
  | deviceCreate
  | flasherErase (offset : Nat)
  | flasherWrite (len offset : Nat)
  | deviceReset
  | sambaDisconnect
  | progress (cur tot : Nat)
deriving DecidableEq, Repr

/-- `SerialPortInfo` as returned by `port.getInfo()`. -/
structure PortInfo where
  usbVendorId : Option Nat
  usbProductId : Option Nat
deriving DecidableEq, Repr

/-- Flash geometry exposed by `device.flash`. -/
structure FlashDescriptor where
  pageSize : Nat
  numPages : Nat
  totalSize : Nat
deriving DecidableEq, Repr

/-- Environment deciding the outcome of every external call
`flashFirmware` can make, in program order.  `none` means the call
returns normally; `some e` means it throws `e`.  `resetFail` is the
index of the first throwing operation inside `resetToBootloader`
(0 = open, 1-3 = the three setSignals calls, 4 = close); `none` or an
out-of-range index means the whole sequence succeeds. -/
structure FlashEnv where
  firmwareData : Option (List Nat)
  browserSupport : Bool
  requestPort1 : Except JsError PortInfo
  probeOpen : Option JsError
  probeClose : Option JsError
  resetFail : Option Nat
  getPorts : Except JsError (List PortInfo)
  requestPort2 : Except JsError PortInfo
  connectErr : Option JsError
  createErr : Option JsError
  family : Family
  flash : Option FlashDescriptor
  eraseErr : Option JsError
  writeErr : Option JsError
  devResetErr : Option JsError
  disconnectErr : Option JsError
  closeBootErr : Option JsError
  closeNormalErr : Option JsError
deriving Repr

/-- Final state of the two UI controls the flow disables. -/
structure UIState where
  flashBtnDisabled : Bool
  fileInputDisabled : Bool
deriving DecidableEq, Repr

/-- Which terminal branch of `flashFirmware` ran. -/
inductive Outcome
  | noFirmware
  | noSupport
  | success
  | cancelled
  | unsupported (e : JsError)
  | failed (e : JsError)
deriving DecidableEq, Repr

/-- Result of one `flashFirmware` run: the event trace, the final UI
state, and the terminal branch taken. -/
structure FlashResult where
  trace : List Event
  ui : UIState
  outcome : Outcome
deriving DecidableEq, Repr

/-- Options of the 1200-baud touch open (example.ts lines 147-152). -/
def opts1200 : OpenOpts := ⟨1200, 8, 1, "none", none, none⟩

/-- Options of the bootloader-probe open (example.ts lines 243-250). -/
def opts921600 : OpenOpts := ⟨921600, 8, 1, "none", some 63, some "hardware"⟩

/-- The `try` block of `resetToBootloader` (example.ts lines 145-172):
the events issued up to (and including) the first failing operation,
and whether the block ran to completion. -/
def resetTrySeq (fail : Option Nat) : List Event × Bool :=
  if fail = some 0 then
    ([.openPort opts1200], false)
  else if fail = some 1 then
    ([.openPort opts1200, .setDTR false], false)
  else if fail = some 2 then
    ([.openPort opts1200, .setDTR false, .sleepMs 100, .setDTR true], false)
  else if fail = some 3 then
    ([.openPort opts1200, .setDTR false, .sleepMs 100, .setDTR true,
      .sleepMs 100, .setDTR false], false)
  else if fail = some 4 then
    ([.openPort opts1200, .setDTR false, .sleepMs 100, .setDTR true,
      .sleepMs 100, .setDTR false, .closePort], false)
  else
    ([.openPort opts1200, .setDTR false, .sleepMs 100, .setDTR true,
      .sleepMs 100, .setDTR false, .closePort,
      .logE .info .resetSignalSent, .sleepMs 2000,
      .logE .success .deviceInBootloader], true)

/-- `resetToBootloader` (example.ts lines 142-177): logs, runs the
touch sequence, and swallows any failure with an info log. -/
def resetToBootloader (fail : Option Nat) : List Event :=
  Event.logE .info .resettingToBootloader ::
    (match resetTrySeq fail with
     | (t, true) => t
     | (t, false) => t ++ [.logE .info .couldNotReset])

/-- The "already in bootloader" probe (example.ts lines 239-268):
returns the value of `isBootloaderMode` after the try/catch together
with the events issued.  Both the success path (line 263) and the
catch path (line 267) assign `false`. -/
def probeBootloader (op cl : Option JsError) : Bool × List Event :=
  match op with
  | some _ => (false, [.logE .info .checkingBootloader, .openPort opts921600])
  | none =>
    match cl with
    | some _ => (false, [.logE .info .checkingBootloader, .openPort opts921600, .closePort])
    | none => (false, [.logE .info .checkingBootloader, .openPort opts921600, .closePort])

/-- The port test of example.ts line 191: `info.usbVendorId &&
USB_FILTERS.some(f => f.usbVendorId === info.usbVendorId)` (a JS
truthiness test on the vendor id, then the allow-list scan). -/
def portMatches (p : PortInfo) : Bool :=
  match p.usbVendorId with
  | some v => (v != 0) && USB_FILTERS.any (fun f => f == v)
  | none => false

/-- `findBootloaderPort` (example.ts lines 182-200): lists authorized
ports and returns the first match; a `getPorts` failure is swallowed
and yields `null`. -/
def findBootloaderPort (gp : Except JsError (List PortInfo)) :
    Option PortInfo × List Event :=
  match gp with
  | .error _ => (none, [.getPortsE])
  | .ok ps =>
    match ps.find? portMatches with
    | some p => (some p, [.getPortsE,
        .logE .info (.foundPotentialPort p.usbVendorId p.usbProductId)])
    | none => (none, [.getPortsE])

/-- The flash offset computed at example.ts lines 326-332. -/
def flashOffsetOf (fam : Family) : Nat :=
  if fam = .FAMILY_SAMD21 ∨ fam = .FAMILY_SAMR21 ∨ fam = .FAMILY_SAML21 then
    BOOTLOADER_SIZE
  else
    0

/-- `Math.round(totalSize / 1024)` of example.ts line 320. -/
def roundKB (n : Nat) : Nat := (n + 512) / 1024

/-- The `Error` thrown at example.ts line 317. -/
def flashNotAvailableErr : JsError := ⟨"Error", .flashNotAvailable⟩

/-- The image-too-large `Error` thrown at example.ts line 337. -/
def imageTooLargeErr (len : Nat) (avail : Int) : JsError :=
  ⟨"Error", .imageTooLarge len avail⟩

/-- An external call wrapped in its own try: the call is issued (its
event is recorded) and its thrown error, if any, is available to the
immediately enclosing catch. -/
def tryCleanupCall (res : Option JsError) (ev : Event) :
    List Event × Option JsError :=
  match res with
  | some e => ([ev], some e)
  | none => ([ev], none)

/-- A `try { call } catch (e) { /* ignore */ }` block: the thrown
error is discarded, only the events remain. -/
def swallowed (r : List Event × Option JsError) : List Event := r.1

/-- The tail of the `try` block from "Step 3: Connecting" on
(example.ts lines 296-382): events issued and the error that aborts
the block, if any. -/
def afterPortSelection (env : FlashEnv) (fw : List Nat) :
    List Event × Option JsError :=
  let t0 : List Event := [.logE .info .step3Connecting, .sambaConnect]
  match env.connectErr with
  | some e => (t0, some e)
  | none =>
    let t1 := t0 ++ [.logE .success .connectedToSamba,
                     .logE .info .detectingDevice, .deviceCreate]
    match env.createErr with
    | some e => (t1, some e)
    | none =>
      match env.flash with
      | none => (t1, some flashNotAvailableErr)
      | some fd =>
        let t2 := t1 ++ [.logE .success
          (.deviceInfo fd.numPages fd.pageSize (roundKB fd.totalSize))]
        let offset := flashOffsetOf env.family
        let t3 :=
          if env.family = .FAMILY_SAMD21 ∨ env.family = .FAMILY_SAMR21 ∨
              env.family = .FAMILY_SAML21 then
            t2 ++ [.logE .info (.usingFlashOffset BOOTLOADER_SIZE)]
          else t2
        let availableFlash : Int := (fd.totalSize : Int) - (offset : Int)
        if availableFlash < (fw.length : Int) then
          (t3, some (imageTooLargeErr fw.length availableFlash))
        else
          let t4 := t3 ++ [.logE .info .step4Flashing,
                           .logE .info (.erasingAt offset), .flasherErase offset]
          match env.eraseErr with
          | some e => (t4, some e)
          | none =>
            let t5 := t4 ++ [.logE .success .flashErased,
                             .logE .info (.writingAt offset),
                             .flasherWrite fw.length offset]
            match env.writeErr with
            | some e => (t5, some e)
            | none =>
              let t6 := t5 ++ [.logE .success .firmwareWritten,
                               .logE .info .resettingDevice, .deviceReset]
              match env.devResetErr with
              | some e => (t6, some e)
              | none =>
                let t7 := t6 ++
                  swallowed (tryCleanupCall env.disconnectErr .sambaDisconnect) ++
                  swallowed (tryCleanupCall env.closeBootErr .closePort) ++
                  [.logE .success .flashComplete, .progress 100 100]
                (t7, none)

/-- Local variables of `flashFirmware` still live when the `catch`
block runs: the accumulated trace, `normalPort`, `bootloaderPort`
(as port tags: 1 = first requested, 2 = discovered, 3 = second
requested) and whether `samba` was constructed. -/
structure Ctx where
  trace : List Event
  normalPort : Option Nat
  bootPort : Option Nat
  samba : Bool
deriving DecidableEq, Repr

/-- The whole `try` block of `flashFirmware` (example.ts lines
224-382): final local state and the error that reached the `catch`,
if any. -/
def tryBody (env : FlashEnv) (fw : List Nat) : Ctx × Option JsError :=
  let t0 : List Event := [.logE .info .step1SelectPort,
    .logE .warning .selectBootloaderIfAlready, .requestPortE USB_FILTERS]
  match env.requestPort1 with
  | .error e => (⟨t0, none, none, false⟩, some e)
  | .ok _ =>
    let pr := probeBootloader env.probeOpen env.probeClose
    let t1 := t0 ++ [.logE .info .portSelected] ++ pr.2
    if pr.1 then
      let r := afterPortSelection env fw
      (⟨t1 ++ r.1, some 1, some 1, true⟩, r.2)
    else
      let t2 := t1 ++ resetToBootloader env.resetFail ++
        [.logE .info .step2LookingForPort]
      let fb := findBootloaderPort env.getPorts
      let t3 := t2 ++ fb.2
      match fb.1 with
      | some _ =>
        let r := afterPortSelection env fw
        (⟨t3 ++ r.1, none, some 2, true⟩, r.2)
      | none =>
        let t4 := t3 ++ [.logE .warning .selectBootloaderManually,
                         .requestPortE USB_FILTERS]
        match env.requestPort2 with
        | .error e => (⟨t4, none, none, false⟩, some e)
        | .ok _ =>
          let r := afterPortSelection env fw
          (⟨t4 ++ r.1, none, some 3, true⟩, r.2)

/-- The error dispatch at the head of the `catch` block (example.ts
lines 384-395): the log entry it emits and the outcome it reports. -/
def catchDispatch (e : JsError) : Event × Outcome :=
  if e.name == "NotFoundError" then
    (.logE .info .cancelledByUser, .cancelled)
  else if (match e.message with
           | .raw s => (s.splitOn "DeviceUnsupported").length != 1
           | .flashNotAvailable => false
           | .imageTooLarge _ _ => false) then
    (.logE .error .deviceNotSupported, .unsupported e)
  else
    (.logE .error (.flashFailed e), .failed e)

/-- The cleanup half of the `catch` block (example.ts lines 397-414):
three best-effort, individually swallowed close/disconnect calls. -/
def catchCleanup (env : FlashEnv) (c : Ctx) : List Event :=
  (if c.samba then
     swallowed (tryCleanupCall env.disconnectErr .sambaDisconnect)
   else []) ++
  (if c.bootPort.isSome then
     swallowed (tryCleanupCall env.closeBootErr .closePort)
   else []) ++
  (if c.normalPort.isSome && (c.normalPort != c.bootPort) then
     swallowed (tryCleanupCall env.closeNormalErr .closePort)
   else [])

/-- `flashFirmware` (example.ts lines 205-420): the full pipeline with
its guards, try/catch/finally, and final UI state. -/
def flashFirmware (env : FlashEnv) (ui : UIState) : FlashResult :=
  match env.firmwareData with
  | none => ⟨[.logE .error .noFirmwareSelected], ui, .noFirmware⟩
  | some fw =>
    if env.browserSupport then
      let pre : List Event := [.uiSetDisabled true, .progressReset]
      let r := tryBody env fw
      match r.2 with
      | none =>
        ⟨pre ++ r.1.trace ++ [.uiSetDisabled false], ⟨false, false⟩, .success⟩
      | some e =>
        let d := catchDispatch e
        ⟨pre ++ r.1.trace ++ [d.1] ++ catchCleanup env r.1 ++
           [.uiSetDisabled false], ⟨false, false⟩, d.2⟩
    else
      ⟨[.logE .error .webSerialUnsupported, .logE .error .useChromiumBrowser],
        ui, .noSupport⟩

/-- `e1` occurs strictly before `e2` in the trace `t`. -/
def occursBefore (e1 e2 : Event) (t : List Event) : Prop :=
  ∃ l1 l2 l3, t = l1 ++ e1 :: l2 ++ e2 :: l3

/-- `true` iff the event is not a flash erase or write command. -/
def flashCmdFree : Event → Bool
  | .flasherErase _ => false
  | .flasherWrite _ _ => false
  | _ => true

/-- `true` iff the trace contains no flash erase or write command. -/
def noFlashCmd (t : List Event) : Bool := t.all flashCmdFree

/-- `true` iff the event, when it is an erase command, targets `off`,
and when it is a write command, writes exactly `len` bytes at `off`. -/
def cmdUses (len off : Nat) : Event → Bool
  | .flasherErase o => o == off
  | .flasherWrite n o => (o == off) && (n == len)
  | _ => true

/-- `true` iff every erase command in the trace targets `off` and every
write command writes exactly `len` bytes at `off`. -/
def flashCmdsUse (len off : Nat) (t : List Event) : Bool :=
  t.all (cmdUses len off)

/-- The port predicate as the spec words it: the USB vendor id is one
of the four allow-listed identifiers. -/
def specPortMatch (p : PortInfo) : Bool :=
  match p.usbVendorId with
  | some v => decide (v = 0x239A ∨ v = 0x2341 ∨ v = 0x1B4F ∨ v = 0x03EB)
  | none => false

/-- An environment with the three cleanup-call outcomes replaced. -/
def withCleanup (env : FlashEnv) (d cb cn : Option JsError) : FlashEnv :=
  { env with disconnectErr := d, closeBootErr := cb, closeNormalErr := cn }

/-- A small firmware image for concrete runs. -/
def fwSmall : List Nat := [0, 1, 2, 3]

/-- A 300000-byte firmware image (end-to-end scenario C of the spec). -/
def fwBig : List Nat := List.replicate 300000 0

/-- An authorized Adafruit port. -/
def portA : PortInfo := ⟨some 0x239A, some 21⟩

/-- The SAMD21 flash descriptor of end-to-end scenario A. -/
def fd0 : FlashDescriptor := ⟨64, 4096, 262144⟩

/-- Initial UI state: both controls enabled. -/
def ui0 : UIState := ⟨false, false⟩

/-- A fully successful environment. -/
def envHappy : FlashEnv :=
  ⟨some fwSmall, true, .ok portA, none, none, none, .ok [portA], .ok portA,
   none, none, .FAMILY_SAMD21, some fd0, none, none, none, none, none, none⟩

/-- Scenario C: the oversized image against the SAMD21 descriptor. -/
def envTooBig : FlashEnv := { envHappy with firmwareData := some fwBig }

/-- No firmware file selected. -/
def envNoFw : FlashEnv := { envHappy with firmwareData := none }

/-- The error the port chooser raises when the operator declines. -/
def declineErr : JsError := ⟨"NotFoundError", .raw "No port selected by the user"⟩

/-- A transport error thrown by a close or disconnect call. -/
def cleanupErr : JsError := ⟨"NetworkError", .raw "The device has been lost"⟩

/-- The operator declines the first port prompt. -/
def envDecline : FlashEnv :=
  { envHappy with requestPort1 := .error declineErr }

/-- No authorized port matches and the manual prompt succeeds. -/
def envManual : FlashEnv := { envHappy with getPorts := .ok [⟨none, none⟩] }

/-- The 1200-baud touch open throws; everything else succeeds. -/
def envRfail : FlashEnv := { envHappy with resetFail := some 0 }

/-! ## Structural lemmas about the embedding -/

lemma swallowed_cleanup (res : Option JsError) (ev : Event) :
    swallowed (tryCleanupCall res ev) = [ev] := by
  cases res <;> rfl

lemma probe_fst_false (op cl : Option JsError) :
    (probeBootloader op cl).1 = false := by
  cases op with
  | some e => rfl
  | none => cases cl <;> rfl

lemma reset_head (fail : Option Nat) :
    ∃ r, resetToBootloader fail =
      Event.logE .info .resettingToBootloader :: r := by
  exact ⟨_, rfl⟩

lemma noFlashCmd_append (a b : List Event) :
    noFlashCmd (a ++ b) = (noFlashCmd a && noFlashCmd b) := by
  simp [noFlashCmd, List.all_append]

lemma noFlashCmd_resetTry (fail : Option Nat) :
    noFlashCmd (resetTrySeq fail).1 = true := by
  unfold resetTrySeq
  split
  · rfl
  split
  · rfl
  split
  · rfl
  split
  · rfl
  split
  · rfl
  · rfl

lemma noFlashCmd_reset (fail : Option Nat) :
    noFlashCmd (resetToBootloader fail) = true := by
  have h := noFlashCmd_resetTry fail
  unfold resetToBootloader
  rcases hr : resetTrySeq fail with ⟨t, b⟩
  rw [hr] at h
  cases b <;> simp_all [noFlashCmd, List.all_append, flashCmdFree]

lemma noFlashCmd_probe (op cl : Option JsError) :
    noFlashCmd (probeBootloader op cl).2 = true := by
  cases op with
  | some e => rfl
  | none => cases cl <;> rfl

lemma noFlashCmd_find (gp : Except JsError (List PortInfo)) :
    noFlashCmd (findBootloaderPort gp).2 = true := by
  unfold findBootloaderPort
  cases gp with
  | error e => rfl
  | ok ps =>
    rcases h : ps.find? portMatches with _ | p <;> simp [h] <;> rfl

lemma noFlashCmd_cleanup (env : FlashEnv) (c : Ctx) :
    noFlashCmd (catchCleanup env c) = true := by
  unfold catchCleanup
  simp only [swallowed_cleanup, noFlashCmd_append]
  split <;> split <;> split <;> rfl

lemma flashCmdsUse_append (len off : Nat) (a b : List Event) :
    flashCmdsUse len off (a ++ b) =
      (flashCmdsUse len off a && flashCmdsUse len off b) := by
  simp [flashCmdsUse, List.all_append]

lemma flashCmdsUse_ite (len off : Nat) (c : Prop) [Decidable c]
    (a b : List Event) :
    flashCmdsUse len off (if c then a else b) =
      if c then flashCmdsUse len off a else flashCmdsUse len off b := by
  split <;> rfl

lemma flashCmdsUse_of_noFlash (len off : Nat) (t : List Event)
    (h : noFlashCmd t = true) : flashCmdsUse len off t = true := by
  induction t with
  | nil => rfl
  | cons e t ih =>
    simp only [noFlashCmd, List.all_cons, Bool.and_eq_true] at h
    simp only [flashCmdsUse, List.all_cons, Bool.and_eq_true]
    refine ⟨?_, ih h.2⟩
    cases e <;> simp_all [flashCmdFree, cmdUses]

lemma dispatch_cmdUses (len off : Nat) (e : JsError) :
    cmdUses len off (catchDispatch e).1 = true := by
  unfold catchDispatch
  split
  · rfl
  split <;> rfl

lemma dispatch_flashCmdFree (e : JsError) :
    flashCmdFree (catchDispatch e).1 = true := by
  unfold catchDispatch
  split
  · rfl
  split <;> rfl

/-- On the image-too-large path, `afterPortSelection` aborts with the
size error and has issued no erase or write command. -/
lemma aps_toolarge (env : FlashEnv) (fw : List Nat) (fd : FlashDescriptor)
    (hc : env.connectErr = none) (hcr : env.createErr = none)
    (hf : env.flash = some fd)
    (hs : (fd.totalSize : Int) - (flashOffsetOf env.family : Int) <
      (fw.length : Int)) :
    (afterPortSelection env fw).2 =
      some (imageTooLargeErr fw.length
        ((fd.totalSize : Int) - (flashOffsetOf env.family : Int))) ∧
    noFlashCmd (afterPortSelection env fw).1 = true := by
  simp only [afterPortSelection, hc, hcr, hf]
  rw [if_pos hs]
  constructor
  · rfl
  · split <;> simp [noFlashCmd, flashCmdFree]

/-- When the image fits, `afterPortSelection` issues the erase command
at the computed offset, and (when erase does not throw) the write
command for the whole image at the same offset. -/
lemma aps_run (env : FlashEnv) (fw : List Nat) (fd : FlashDescriptor)
    (hc : env.connectErr = none) (hcr : env.createErr = none)
    (hf : env.flash = some fd)
    (hs : ¬((fd.totalSize : Int) - (flashOffsetOf env.family : Int) <
      (fw.length : Int))) :
    Event.flasherErase (flashOffsetOf env.family) ∈
      (afterPortSelection env fw).1 ∧
    (env.eraseErr = none →
      Event.flasherWrite fw.length (flashOffsetOf env.family) ∈
        (afterPortSelection env fw).1) := by
  simp only [afterPortSelection, hc, hcr, hf]
  rw [if_neg hs]
  constructor
  · cases h1 : env.eraseErr <;> cases h2 : env.writeErr <;>
      cases h3 : env.devResetErr <;> simp [swallowed_cleanup]
  · intro he
    rw [he]
    cases h2 : env.writeErr <;> cases h3 : env.devResetErr <;>
      simp [swallowed_cleanup]

/-- Every erase or write command `afterPortSelection` issues targets
the computed offset (and writes exactly the image). -/
lemma aps_cmds (env : FlashEnv) (fw : List Nat) :
    flashCmdsUse fw.length (flashOffsetOf env.family)
      (afterPortSelection env fw).1 = true := by
  unfold afterPortSelection
  cases hc : env.connectErr <;>
  cases hcr : env.createErr <;>
  rcases hf : env.flash with _ | fd <;>
  cases h1 : env.eraseErr <;>
  cases h2 : env.writeErr <;>
  cases h3 : env.devResetErr <;>
  (try simp only [swallowed_cleanup]) <;>
  (try split) <;>
  (try simp only [flashCmdsUse_append, flashCmdsUse_ite]) <;>
  simp [flashCmdsUse, cmdUses]

lemma noFlashCmd_nil : noFlashCmd [] = true := rfl

lemma noFlashCmd_cons (e : Event) (t : List Event) :
    noFlashCmd (e :: t) = (flashCmdFree e && noFlashCmd t) := by
  simp [noFlashCmd]

lemma flashCmdsUse_nil (len off : Nat) : flashCmdsUse len off [] = true := rfl

lemma flashCmdsUse_cons (len off : Nat) (e : Event) (t : List Event) :
    flashCmdsUse len off (e :: t) =
      (cmdUses len off e && flashCmdsUse len off t) := by
  simp [flashCmdsUse]

/-- The `try` block aborts with `afterPortSelection`'s error whenever a
bootloader port was obtained (by discovery or by the manual prompt). -/
lemma tb_err (env : FlashEnv) (fw : List Nat) (p : PortInfo)
    (h1 : env.requestPort1 = .ok p)
    (h2 : (findBootloaderPort env.getPorts).1.isSome = true ∨
      ∃ q, env.requestPort2 = .ok q) :
    (tryBody env fw).2 = (afterPortSelection env fw).2 := by
  unfold tryBody
  rw [h1]
  simp only [probe_fst_false, Bool.false_eq_true, if_false]
  rcases hfb : (findBootloaderPort env.getPorts).1 with _ | q
  · rcases h2 with h2 | ⟨q, hq⟩
    · rw [hfb] at h2
      simp at h2
    · rw [hq]
  · rfl

/-- The `try` block of `flashFirmware` on the declined-prompt path. -/
lemma tb_cancel (env : FlashEnv) (fw : List Nat) (e : JsError)
    (h1 : env.requestPort1 = .error e) :
    tryBody env fw =
      (⟨[Event.logE .info .step1SelectPort,
         Event.logE .warning .selectBootloaderIfAlready,
         Event.requestPortE USB_FILTERS], none, none, false⟩, some e) := by
  unfold tryBody
  rw [h1]

/-- If the connect-onward tail issues no flash command, neither does
the whole `try` block. -/
lemma tb_noflash (env : FlashEnv) (fw : List Nat)
    (haps : noFlashCmd (afterPortSelection env fw).1 = true) :
    noFlashCmd (tryBody env fw).1.trace = true := by
  have hp := noFlashCmd_probe env.probeOpen env.probeClose
  have hr := noFlashCmd_reset env.resetFail
  have hfbl := noFlashCmd_find env.getPorts
  unfold tryBody
  rcases h1 : env.requestPort1 with e | p
  · simp [noFlashCmd_cons, noFlashCmd_nil, flashCmdFree]
  · simp only [probe_fst_false, Bool.false_eq_true, if_false]
    rcases hfb : (findBootloaderPort env.getPorts).1 with _ | q
    · rcases h2 : env.requestPort2 with e | q <;>
        simp [noFlashCmd_append, noFlashCmd_cons, noFlashCmd_nil,
          flashCmdFree, haps, hp, hr, hfbl]
    · simp [noFlashCmd_append, noFlashCmd_cons, noFlashCmd_nil,
        flashCmdFree, haps, hp, hr, hfbl]

/-- Every erase/write command the `try` block issues targets the
computed offset and writes exactly the image. -/
lemma tb_cmds (env : FlashEnv) (fw : List Nat) :
    flashCmdsUse fw.length (flashOffsetOf env.family)
      (tryBody env fw).1.trace = true := by
  have haps := aps_cmds env fw
  have hp := flashCmdsUse_of_noFlash fw.length (flashOffsetOf env.family) _
    (noFlashCmd_probe env.probeOpen env.probeClose)
  have hr := flashCmdsUse_of_noFlash fw.length (flashOffsetOf env.family) _
    (noFlashCmd_reset env.resetFail)
  have hfbl := flashCmdsUse_of_noFlash fw.length (flashOffsetOf env.family) _
    (noFlashCmd_find env.getPorts)
  unfold tryBody
  rcases h1 : env.requestPort1 with e | p
  · simp [flashCmdsUse_cons, flashCmdsUse_nil, cmdUses]
  · simp only [probe_fst_false, Bool.false_eq_true, if_false]
    rcases hfb : (findBootloaderPort env.getPorts).1 with _ | q
    · rcases h2 : env.requestPort2 with e | q <;>
        simp [flashCmdsUse_append, flashCmdsUse_cons, flashCmdsUse_nil,
          cmdUses, haps, hp, hr, hfbl]
    · simp [flashCmdsUse_append, flashCmdsUse_cons, flashCmdsUse_nil,
        cmdUses, haps, hp, hr, hfbl]

/-- Once the first port prompt succeeds, the `try` block's trace is:
the step-1 logs and prompt, the probe, the whole touch-reset sequence,
the discovery log, and then a tail. -/
lemma tb_shape (env : FlashEnv) (fw : List Nat) (p : PortInfo)
    (h1 : env.requestPort1 = .ok p) :
    ∃ tail, (tryBody env fw).1.trace =
      ([Event.logE .info .step1SelectPort,
        Event.logE .warning .selectBootloaderIfAlready,
        Event.requestPortE USB_FILTERS, Event.logE .info .portSelected] ++
        (probeBootloader env.probeOpen env.probeClose).2) ++
      (resetToBootloader env.resetFail ++
        (Event.logE .info .step2LookingForPort :: tail)) := by
  unfold tryBody
  rw [h1]
  simp only [probe_fst_false, Bool.false_eq_true, if_false]
  rcases hfb : (findBootloaderPort env.getPorts).1 with _ | q
  · rcases h2 : env.requestPort2 with e | q
    · exact ⟨(findBootloaderPort env.getPorts).2 ++
        [.logE .warning .selectBootloaderManually, .requestPortE USB_FILTERS],
        by simp⟩
    · exact ⟨(findBootloaderPort env.getPorts).2 ++
        [.logE .warning .selectBootloaderManually, .requestPortE USB_FILTERS] ++
        (afterPortSelection env fw).1, by simp⟩
  · exact ⟨(findBootloaderPort env.getPorts).2 ++
      (afterPortSelection env fw).1, by simp⟩

/-- When no authorized port matches, the `try` block's trace contains
the `getPorts` call immediately followed by the manual-selection
warning and the second prompt with the same filters. -/
lemma tb_shape_fallback (env : FlashEnv) (fw : List Nat) (p : PortInfo)
    (ps : List PortInfo) (h1 : env.requestPort1 = .ok p)
    (hgp : env.getPorts = .ok ps)
    (hfind : ps.find? portMatches = none) :
    ∃ A tail, (tryBody env fw).1.trace =
      A ++ Event.getPortsE ::
        Event.logE .warning .selectBootloaderManually ::
        Event.requestPortE USB_FILTERS :: tail := by
  have hfb : findBootloaderPort env.getPorts = (none, [Event.getPortsE]) := by
    rw [hgp]
    simp [findBootloaderPort, hfind]
  unfold tryBody
  rw [h1]
  simp only [probe_fst_false, Bool.false_eq_true, if_false, hfb]
  rcases h2 : env.requestPort2 with e | q
  · exact ⟨[Event.logE .info .step1SelectPort,
      Event.logE .warning .selectBootloaderIfAlready,
      Event.requestPortE USB_FILTERS, Event.logE .info .portSelected] ++
      (probeBootloader env.probeOpen env.probeClose).2 ++
      resetToBootloader env.resetFail ++
      [Event.logE .info .step2LookingForPort], [], by simp⟩
  · exact ⟨[Event.logE .info .step1SelectPort,
      Event.logE .warning .selectBootloaderIfAlready,
      Event.requestPortE USB_FILTERS, Event.logE .info .portSelected] ++
      (probeBootloader env.probeOpen env.probeClose).2 ++
      resetToBootloader env.resetFail ++
      [Event.logE .info .step2LookingForPort],
      (afterPortSelection env fw).1, by simp⟩

/-- Once a bootloader port was obtained, the `try` block's trace ends
with the connect-onward tail. -/
lemma tb_aps_sub (env : FlashEnv) (fw : List Nat) (p : PortInfo)
    (h1 : env.requestPort1 = .ok p)
    (h2 : (findBootloaderPort env.getPorts).1.isSome = true ∨
      ∃ q, env.requestPort2 = .ok q) :
    ∃ A, (tryBody env fw).1.trace = A ++ (afterPortSelection env fw).1 := by
  unfold tryBody
  rw [h1]
  simp only [probe_fst_false, Bool.false_eq_true, if_false]
  rcases hfb : (findBootloaderPort env.getPorts).1 with _ | q
  · rcases h2 with h2 | ⟨q, hq⟩
    · rw [hfb] at h2
      simp at h2
    · rw [hq]
      exact ⟨[Event.logE .info .step1SelectPort,
        Event.logE .warning .selectBootloaderIfAlready,
        Event.requestPortE USB_FILTERS, Event.logE .info .portSelected] ++
        (probeBootloader env.probeOpen env.probeClose).2 ++
        resetToBootloader env.resetFail ++
        [Event.logE .info .step2LookingForPort] ++
        (findBootloaderPort env.getPorts).2 ++
        [.logE .warning .selectBootloaderManually,
         .requestPortE USB_FILTERS], by simp⟩
  · exact ⟨[Event.logE .info .step1SelectPort,
      Event.logE .warning .selectBootloaderIfAlready,
      Event.requestPortE USB_FILTERS, Event.logE .info .portSelected] ++
      (probeBootloader env.probeOpen env.probeClose).2 ++
      resetToBootloader env.resetFail ++
      [Event.logE .info .step2LookingForPort] ++
      (findBootloaderPort env.getPorts).2, by simp⟩

/-- `flashFirmware` unfolded past its guards: the two early guards
passed, so the result is determined by the `try` block's outcome. -/
lemma ff_eq (env : FlashEnv) (ui : UIState) (fw : List Nat)
    (hfw : env.firmwareData = some fw) (hbs : env.browserSupport = true) :
    flashFirmware env ui =
      (match (tryBody env fw).2 with
       | none =>
         ⟨[Event.uiSetDisabled true, Event.progressReset] ++
            (tryBody env fw).1.trace ++ [Event.uiSetDisabled false],
          ⟨false, false⟩, Outcome.success⟩
       | some e =>
         ⟨[Event.uiSetDisabled true, Event.progressReset] ++
            (tryBody env fw).1.trace ++ [(catchDispatch e).1] ++
            catchCleanup env (tryBody env fw).1 ++
            [Event.uiSetDisabled false],
          ⟨false, false⟩, (catchDispatch e).2⟩) := by
  unfold flashFirmware
  rw [hfw, hbs]
  rcases h2 : (tryBody env fw).2 with _ | e <;> simp [h2]

/-- The full trace extends the `try` block's trace, after the
UI-disable and progress-reset events. -/
lemma ff_sub (env : FlashEnv) (ui : UIState) (fw : List Nat)
    (hfw : env.firmwareData = some fw) (hbs : env.browserSupport = true) :
    ∃ X, (flashFirmware env ui).trace =
      Event.uiSetDisabled true :: Event.progressReset ::
        ((tryBody env fw).1.trace ++ X) := by
  rw [ff_eq env ui fw hfw hbs]
  rcases h2 : (tryBody env fw).2 with _ | e
  · exact ⟨[Event.uiSetDisabled false], by simp⟩
  · exact ⟨[(catchDispatch e).1] ++ catchCleanup env (tryBody env fw).1 ++
      [Event.uiSetDisabled false], by simp⟩

/-- The outcome is success, or the dispatch of the `try` block's error. -/
lemma ff_outcome (env : FlashEnv) (ui : UIState) (fw : List Nat)
    (hfw : env.firmwareData = some fw) (hbs : env.browserSupport = true) :
    (flashFirmware env ui).outcome =
      (match (tryBody env fw).2 with
       | none => Outcome.success
       | some e => (catchDispatch e).2) := by
  rw [ff_eq env ui fw hfw hbs]
  rcases h2 : (tryBody env fw).2 with _ | e <;> simp [h2]

/-! ## Claim theorems -/

lemma find_congr {α : Type} (p q : α → Bool) (h : ∀ a, p a = q a) :
    ∀ l : List α, l.find? p = l.find? q := by
  intro l
  induction l with
  | nil => rfl
  | cons a t ih =>
    simp only [List.find?]
    rw [h a]
    cases q a <;> simp [ih]

lemma portMatches_eq_spec (q : PortInfo) : portMatches q = specPortMatch q := by
  unfold portMatches specPortMatch USB_FILTERS
  rcases q.usbVendorId with _ | v
  · rfl
  · by_cases h1 : v = 0x239A
    · subst h1; rfl
    · by_cases h2 : v = 0x2341
      · subst h2; rfl
      · by_cases h3 : v = 0x1B4F
        · subst h3; rfl
        · by_cases h4 : v = 0x03EB
          · subst h4; rfl
          · simp [h1, h2, h3, h4, Ne.symm h1, Ne.symm h2, Ne.symm h3,
              Ne.symm h4]

lemma dispatch_imageTooLarge (len : Nat) (avail : Int) :
    catchDispatch (imageTooLargeErr len avail) =
      (.logE .error (.flashFailed (imageTooLargeErr len avail)),
       .failed (imageTooLargeErr len avail)) := by
  rfl

/-- If the `try` block issues no flash command, neither does the full
pipeline run (catch-cleanup and UI events add none). -/
lemma ff_noflash (env : FlashEnv) (ui : UIState) (fw : List Nat)
    (hfw : env.firmwareData = some fw) (hbs : env.browserSupport = true)
    (htb : noFlashCmd (tryBody env fw).1.trace = true) :
    noFlashCmd (flashFirmware env ui).trace = true := by
  rw [ff_eq env ui fw hfw hbs]
  rcases h2 : (tryBody env fw).2 with _ | e
  · simp [noFlashCmd_append, noFlashCmd_cons, noFlashCmd_nil,
      flashCmdFree, htb]
  · have hcl := noFlashCmd_cleanup env (tryBody env fw).1
    have hd := dispatch_flashCmdFree e
    simp [noFlashCmd_append, noFlashCmd_cons, noFlashCmd_nil,
      flashCmdFree, htb, hcl, hd]
    exact hd

/-- Every erase/write command in a full pipeline run targets the
computed offset and writes exactly the image. -/
lemma ff_cmds (env : FlashEnv) (ui : UIState) (fw : List Nat)
    (hfw : env.firmwareData = some fw) (hbs : env.browserSupport = true) :
    flashCmdsUse fw.length (flashOffsetOf env.family)
      (flashFirmware env ui).trace = true := by
  have htb := tb_cmds env fw
  have hcl := flashCmdsUse_of_noFlash fw.length (flashOffsetOf env.family) _
    (noFlashCmd_cleanup env (tryBody env fw).1)
  rw [ff_eq env ui fw hfw hbs]
  rcases h2 : (tryBody env fw).2 with _ | e
  · simp [flashCmdsUse_append, flashCmdsUse_cons, flashCmdsUse_nil,
      cmdUses, htb]
  · have hd := dispatch_cmdUses fw.length (flashOffsetOf env.family) e
    simp [flashCmdsUse_append, flashCmdsUse_cons, flashCmdsUse_nil,
      cmdUses, htb, hcl, hd]
    exact hd

/-- Claim C1: when the image is longer than `totalSize` minus the
application offset, `flashFirmware` fails with the image-too-large
error, and no erase or write command appears anywhere in the run. -/
theorem flashFirmware_imageTooLarge (env : FlashEnv) (ui : UIState)
    (fw : List Nat) (fd : FlashDescriptor) (p : PortInfo)
    (hfw : env.firmwareData = some fw) (hbs : env.browserSupport = true)
    (hp1 : env.requestPort1 = .ok p)
    (hport : (findBootloaderPort env.getPorts).1.isSome = true ∨
      ∃ q, env.requestPort2 = .ok q)
    (hc : env.connectErr = none) (hcr : env.createErr = none)
    (hf : env.flash = some fd)
    (hs : (fd.totalSize : Int) - (flashOffsetOf env.family : Int) <
      (fw.length : Int)) :
    (flashFirmware env ui).outcome =
      .failed (imageTooLargeErr fw.length
        ((fd.totalSize : Int) - (flashOffsetOf env.family : Int))) ∧
    noFlashCmd (flashFirmware env ui).trace = true := by
  obtain ⟨herr, hnf⟩ := aps_toolarge env fw fd hc hcr hf hs
  have htb2 : (tryBody env fw).2 =
      some (imageTooLargeErr fw.length
        ((fd.totalSize : Int) - (flashOffsetOf env.family : Int))) :=
    (tb_err env fw p hp1 hport).trans herr
  constructor
  · rw [ff_outcome env ui fw hfw hbs, htb2]
    simp [dispatch_imageTooLarge]
  · exact ff_noflash env ui fw hfw hbs (tb_noflash env fw hnf)

/-- Witness for C1: end-to-end scenario C (300000-byte image against
totalSize 262144 with application offset 8192). -/
theorem flashFirmware_imageTooLarge_w :
    (flashFirmware envTooBig ui0).outcome =
      .failed (imageTooLargeErr fwBig.length
        ((fd0.totalSize : Int) - (flashOffsetOf envTooBig.family : Int))) ∧
    noFlashCmd (flashFirmware envTooBig ui0).trace = true := by
  refine flashFirmware_imageTooLarge envTooBig ui0 fwBig fd0 portA
    rfl rfl rfl (Or.inl (by decide)) rfl rfl rfl ?_
  have h : fwBig.length = 300000 := by
    unfold fwBig
    exact List.length_replicate 300000 0
  rw [h]
  decide

/-- Claim C2: the bootloader probe returns `false` on every execution
path, so the touch reset is always performed before port discovery. -/
theorem probe_alwaysFalse :
    (∀ op cl, (probeBootloader op cl).1 = false) ∧
    (∀ env ui fw p, env.firmwareData = some fw →
      env.browserSupport = true → env.requestPort1 = .ok p →
      occursBefore (.logE .info .resettingToBootloader)
        (.logE .info .step2LookingForPort) (flashFirmware env ui).trace) := by
  constructor
  · exact probe_fst_false
  · intro env ui fw p hfw hbs hp1
    obtain ⟨X, hX⟩ := ff_sub env ui fw hfw hbs
    obtain ⟨tail, ht⟩ := tb_shape env fw p hp1
    obtain ⟨r, hr⟩ := reset_head env.resetFail
    refine ⟨Event.uiSetDisabled true :: Event.progressReset ::
      ([Event.logE .info .step1SelectPort,
        Event.logE .warning .selectBootloaderIfAlready,
        Event.requestPortE USB_FILTERS, Event.logE .info .portSelected] ++
        (probeBootloader env.probeOpen env.probeClose).2),
      r, tail ++ X, ?_⟩
    rw [hX, ht, hr]
    simp

/-- Witness for C2 at concrete inputs. -/
theorem probe_alwaysFalse_w :
    (probeBootloader none none).1 = false ∧
    occursBefore (.logE .info .resettingToBootloader)
      (.logE .info .step2LookingForPort)
      (flashFirmware envHappy ui0).trace :=
  ⟨probe_alwaysFalse.1 none none,
   probe_alwaysFalse.2 envHappy ui0 fwSmall portA rfl rfl rfl⟩

/-- Claim C4: any failure inside `resetToBootloader` is swallowed (the
function ends with the info log instead of propagating), and
`flashFirmware` reaches the bootloader-port discovery step for every
reset outcome. -/
theorem reset_best_effort :
    (∀ fail, (resetTrySeq fail).2 = false →
      resetToBootloader fail =
        Event.logE .info .resettingToBootloader ::
          ((resetTrySeq fail).1 ++ [Event.logE .info .couldNotReset])) ∧
    (∀ env ui fw p, env.firmwareData = some fw →
      env.browserSupport = true → env.requestPort1 = .ok p →
      Event.logE .info .step2LookingForPort ∈ (flashFirmware env ui).trace) := by
  constructor
  · intro fail hfail
    unfold resetToBootloader
    rcases hr : resetTrySeq fail with ⟨t, b⟩
    rw [hr] at hfail
    simp only [] at hfail
    subst hfail
    rfl
  · intro env ui fw p hfw hbs hp1
    obtain ⟨X, hX⟩ := ff_sub env ui fw hfw hbs
    obtain ⟨tail, ht⟩ := tb_shape env fw p hp1
    rw [hX, ht]
    simp

/-- Witness for C4: the touch-reset open fails, the failure is
swallowed, and the pipeline still reaches discovery. -/
theorem reset_best_effort_w :
    resetToBootloader (some 0) =
      Event.logE .info .resettingToBootloader ::
        ((resetTrySeq (some 0)).1 ++ [Event.logE .info .couldNotReset]) ∧
    Event.logE .info .step2LookingForPort ∈
      (flashFirmware envRfail ui0).trace :=
  ⟨reset_best_effort.1 (some 0) rfl,
   reset_best_effort.2 envRfail ui0 fwSmall portA rfl rfl rfl⟩

/-- Claim C5: discovery returns the first authorized port whose vendor
id is in the allow-list, issues no protocol traffic, and on no match
the pipeline falls back to a manual prompt with the same filters. -/
theorem findBootloaderPort_firstMatch (env : FlashEnv) (ui : UIState)
    (fw : List Nat) (p : PortInfo) (ps : List PortInfo)
    (hfw : env.firmwareData = some fw) (hbs : env.browserSupport = true)
    (hp1 : env.requestPort1 = .ok p) (hgp : env.getPorts = .ok ps) :
    (findBootloaderPort env.getPorts).1 = ps.find? specPortMatch ∧
    (∀ e ∈ (findBootloaderPort env.getPorts).2,
      e = Event.getPortsE ∨ ∃ t m, e = Event.logE t m) ∧
    (ps.find? portMatches = none →
      occursBefore Event.getPortsE (Event.requestPortE USB_FILTERS)
        (flashFirmware env ui).trace) := by
  have hcongr : ps.find? portMatches = ps.find? specPortMatch :=
    find_congr portMatches specPortMatch portMatches_eq_spec ps
  refine ⟨?_, ?_, ?_⟩
  · rw [hgp]
    unfold findBootloaderPort
    rcases hfind : ps.find? portMatches with _ | q <;>
      simp [hfind] <;> rw [← hcongr, hfind]
  · rw [hgp]
    unfold findBootloaderPort
    rcases hfind : ps.find? portMatches with _ | q <;> simp [hfind]
  · intro hfind
    obtain ⟨X, hX⟩ := ff_sub env ui fw hfw hbs
    obtain ⟨A, tail, ht⟩ := tb_shape_fallback env fw p ps hp1 hgp hfind
    rw [hX, ht]
    exact ⟨Event.uiSetDisabled true :: Event.progressReset :: A,
      [Event.logE .warning .selectBootloaderManually], tail ++ X, by simp⟩

/-- Witness for C5: no authorized port matches, the manual fallback
prompt is issued after discovery. -/
theorem findBootloaderPort_firstMatch_w :
    (findBootloaderPort envManual.getPorts).1 =
      ([⟨none, none⟩] : List PortInfo).find? specPortMatch ∧
    occursBefore Event.getPortsE (Event.requestPortE USB_FILTERS)
      (flashFirmware envManual ui0).trace := by
  obtain ⟨h1, h2, h3⟩ := findBootloaderPort_firstMatch envManual ui0
    fwSmall portA [⟨none, none⟩] rfl rfl rfl rfl
  exact ⟨h1, h3 (by decide)⟩

/-- Claim C6: the flash offset is 0x2000 (8 KiB) for the SAMD21,
SAMR21 and SAML21 families and 0 for every other family; both erase
and write use that offset, and the size check compares the image
against `totalSize` minus that same offset. -/
theorem flashOffset_policy (env : FlashEnv) (ui : UIState)
    (fw : List Nat) (fd : FlashDescriptor) (p : PortInfo)
    (hfw : env.firmwareData = some fw) (hbs : env.browserSupport = true)
    (hp1 : env.requestPort1 = .ok p)
    (hport : (findBootloaderPort env.getPorts).1.isSome = true ∨
      ∃ q, env.requestPort2 = .ok q)
    (hc : env.connectErr = none) (hcr : env.createErr = none)
    (hf : env.flash = some fd) :
    (flashOffsetOf .FAMILY_SAMD21 = 0x2000 ∧
     flashOffsetOf .FAMILY_SAMR21 = 0x2000 ∧
     flashOffsetOf .FAMILY_SAML21 = 0x2000 ∧
     flashOffsetOf .FAMILY_NONE = 0) ∧
    flashCmdsUse fw.length (flashOffsetOf env.family)
      (flashFirmware env ui).trace = true ∧
    (¬((fd.totalSize : Int) - (flashOffsetOf env.family : Int) <
        (fw.length : Int)) →
      Event.flasherErase (flashOffsetOf env.family) ∈
        (flashFirmware env ui).trace ∧
      (env.eraseErr = none →
        Event.flasherWrite fw.length (flashOffsetOf env.family) ∈
          (flashFirmware env ui).trace)) ∧
    ((fd.totalSize : Int) - (flashOffsetOf env.family : Int) <
        (fw.length : Int) →
      (flashFirmware env ui).outcome =
        .failed (imageTooLargeErr fw.length
          ((fd.totalSize : Int) - (flashOffsetOf env.family : Int)))) := by
  refine ⟨⟨rfl, rfl, rfl, rfl⟩, ff_cmds env ui fw hfw hbs, ?_, ?_⟩
  · intro hns
    obtain ⟨hmem1, hmem2⟩ := aps_run env fw fd hc hcr hf hns
    obtain ⟨A, hA⟩ := tb_aps_sub env fw p hp1 hport
    obtain ⟨X, hX⟩ := ff_sub env ui fw hfw hbs
    constructor
    · rw [hX, hA]
      simp [hmem1]
    · intro he
      rw [hX, hA]
      simp [hmem2 he]
  · intro hs
    obtain ⟨herr, _⟩ := aps_toolarge env fw fd hc hcr hf hs
    have htb2 : (tryBody env fw).2 =
        some (imageTooLargeErr fw.length
          ((fd.totalSize : Int) - (flashOffsetOf env.family : Int))) :=
      (tb_err env fw p hp1 hport).trans herr
    rw [ff_outcome env ui fw hfw hbs, htb2]
    simp [dispatch_imageTooLarge]

/-- Witness for C6: a full happy-path run on a SAMD21 device. -/
theorem flashOffset_policy_w :
    (flashOffsetOf .FAMILY_SAMD21 = 0x2000 ∧
     flashOffsetOf .FAMILY_SAMR21 = 0x2000 ∧
     flashOffsetOf .FAMILY_SAML21 = 0x2000 ∧
     flashOffsetOf .FAMILY_NONE = 0) ∧
    flashCmdsUse fwSmall.length (flashOffsetOf envHappy.family)
      (flashFirmware envHappy ui0).trace = true ∧
    Event.flasherErase (flashOffsetOf envHappy.family) ∈
      (flashFirmware envHappy ui0).trace ∧
    Event.flasherWrite fwSmall.length (flashOffsetOf envHappy.family) ∈
      (flashFirmware envHappy ui0).trace := by
  obtain ⟨h1, h2, h3, _⟩ := flashOffset_policy envHappy ui0 fwSmall fd0
    portA rfl rfl rfl (Or.inl (by decide)) rfl rfl rfl
  obtain ⟨hm1, hm2⟩ := h3 (by decide)
  exact ⟨h1, h2, hm1, hm2 rfl⟩

/-- Claim C7: the outcomes of the three cleanup calls (SamBA
disconnect, bootloader-port close, normal-port close) have no effect
on the result of `flashFirmware`: cleanup failures are swallowed and
never replace the original outcome. -/
theorem cleanup_swallowed (env : FlashEnv) (ui : UIState)
    (d cb cn : Option JsError) :
    flashFirmware (withCleanup env d cb cn) ui = flashFirmware env ui := by
  obtain ⟨f1, f2, f3, f4, f5, f6, f7, f8, f9, f10, f11, f12, f13, f14,
    f15, f16, f17, f18⟩ := env
  simp only [withCleanup]
  unfold flashFirmware tryBody afterPortSelection catchCleanup
  simp only [swallowed_cleanup]

/-- Witness for C7: all three cleanup calls throw, the run is
unchanged. -/
theorem cleanup_swallowed_w :
    flashFirmware (withCleanup envHappy (some cleanupErr) (some cleanupErr)
      (some cleanupErr)) ui0 = flashFirmware envHappy ui0 :=
  cleanup_swallowed envHappy ui0 (some cleanupErr) (some cleanupErr)
    (some cleanupErr)

/-- Claim C8: when a port prompt fails with `NotFoundError`, the
dispatch reports the neutral cancelled outcome, logs only the info
"cancelled by user" line, and no error is surfaced. -/
theorem userCancelled_neutral (env : FlashEnv) (ui : UIState)
    (fw : List Nat) (e : JsError)
    (hfw : env.firmwareData = some fw) (hbs : env.browserSupport = true)
    (hname : e.name = "NotFoundError") :
    catchDispatch e = (.logE .info .cancelledByUser, .cancelled) ∧
    (env.requestPort1 = .error e →
      (flashFirmware env ui).outcome = .cancelled ∧
      Event.logE .info .cancelledByUser ∈ (flashFirmware env ui).trace ∧
      ∀ m, Event.logE .error m ∉ (flashFirmware env ui).trace) := by
  have hd : catchDispatch e = (.logE .info .cancelledByUser, .cancelled) := by
    unfold catchDispatch
    rw [hname]
    simp
  refine ⟨hd, ?_⟩
  intro h1
  have htb := tb_cancel env fw e h1
  rw [ff_eq env ui fw hfw hbs, htb]
  simp [hd, catchCleanup, swallowed_cleanup]

/-- Witness for C8: the operator declines the first prompt. -/
theorem userCancelled_neutral_w :
    catchDispatch declineErr = (.logE .info .cancelledByUser, .cancelled) ∧
    (flashFirmware envDecline ui0).outcome = .cancelled ∧
    Event.logE .info .cancelledByUser ∈
      (flashFirmware envDecline ui0).trace := by
  obtain ⟨h1, h2⟩ := userCancelled_neutral envDecline ui0 fwSmall
    declineErr rfl rfl rfl
  have h3 := h2 rfl
  exact ⟨h1, h3.1, h3.2.1⟩

/-- Claim C10: whenever the pipeline gets past its guards (and so
disables the controls), the run re-enables both controls at the very
end: the final UI state is enabled-enabled, the first event is the
disable and the very last event of the trace is the re-enable. -/
theorem ui_reenabled (env : FlashEnv) (ui : UIState) (fw : List Nat)
    (hfw : env.firmwareData = some fw) (hbs : env.browserSupport = true) :
    (flashFirmware env ui).ui = ⟨false, false⟩ ∧
    (flashFirmware env ui).trace.head? = some (Event.uiSetDisabled true) ∧
    (flashFirmware env ui).trace.getLast? =
      some (Event.uiSetDisabled false) := by
  rw [ff_eq env ui fw hfw hbs]
  rcases h2 : (tryBody env fw).2 with _ | e <;>
    exact ⟨rfl, rfl, List.getLast?_concat _⟩

/-- Witness for C10: the happy-path run. -/
theorem ui_reenabled_w :
    (flashFirmware envHappy ui0).ui = ⟨false, false⟩ ∧
    (flashFirmware envHappy ui0).trace.head? =
      some (Event.uiSetDisabled true) ∧
    (flashFirmware envHappy ui0).trace.getLast? =
      some (Event.uiSetDisabled false) :=
  ui_reenabled envHappy ui0 fwSmall rfl rfl

/-- Claim C3: `resetToBootloader` performs exactly: open at 1200 baud
(8 data bits, 1 stop bit, no parity), DTR low, ~100 ms, DTR high,
~100 ms, DTR low, close, then a fixed 2 s settle wait. -/
theorem resetToBootloader_sequence :
    resetToBootloader none =
      [Event.logE .info .resettingToBootloader,
       Event.openPort ⟨1200, 8, 1, "none", none, none⟩,
       Event.setDTR false, Event.sleepMs 100,
       Event.setDTR true, Event.sleepMs 100,
       Event.setDTR false, Event.closePort,
       Event.logE .info .resetSignalSent, Event.sleepMs 2000,
       Event.logE .success .deviceInBootloader] := by
  rfl

/-- Claim C9: with no firmware loaded, `flashFirmware` only logs an
error and returns: no port request, no port open, no device reset, no
UI-disabling, and the UI state is untouched. -/
theorem flashFirmware_noFirmware (env : FlashEnv) (ui : UIState)
    (h : env.firmwareData = none) :
    flashFirmware env ui =
      ⟨[.logE .error .noFirmwareSelected], ui, .noFirmware⟩ ∧
    (∀ fs, Event.requestPortE fs ∉ (flashFirmware env ui).trace) ∧
    (∀ o, Event.openPort o ∉ (flashFirmware env ui).trace) ∧
    Event.deviceReset ∉ (flashFirmware env ui).trace ∧
    (∀ b, Event.uiSetDisabled b ∉ (flashFirmware env ui).trace) ∧
    (flashFirmware env ui).ui = ui := by
  unfold flashFirmware
  rw [h]
  simp

/-- Witness for C9 at a concrete environment. -/
theorem flashFirmware_noFirmware_w :
    flashFirmware envNoFw ui0 =
      ⟨[.logE .error .noFirmwareSelected], ui0, .noFirmware⟩ ∧
    (∀ fs, Event.requestPortE fs ∉ (flashFirmware envNoFw ui0).trace) ∧
    (∀ o, Event.openPort o ∉ (flashFirmware envNoFw ui0).trace) ∧
    Event.deviceReset ∉ (flashFirmware envNoFw ui0).trace ∧
    (∀ b, Event.uiSetDisabled b ∉ (flashFirmware envNoFw ui0).trace) ∧
    (flashFirmware envNoFw ui0).ui = ui0 :=
  flashFirmware_noFirmware envNoFw ui0 rfl

